import Mathlib

/-!
Verification development for the shared-ipc library (src/index.js).

The library is a request/response correlation layer over one-way
postMessage-style transports.  We give a shallow embedding of its data
model and operations:

* JavaScript values that can cross the boundary are modelled by `JSValue`
  (objects as association lists of fields, numbers carrying an explicit
  finiteness distinction so that `typeof NaN === "number"` is representable).
* The module-level mutable state (`ipcReqId`, `ipcReqs`, the promise objects
  held by pending requests) is modelled by `ReqState`, with explicit state
  passing.
* The ambient execution context (window defined or not, global functions,
  global `postMessage`) is modelled by `IpcEnv`.
* Fallible operations return an explicit error component instead of throwing;
  effects performed before a throw are reported alongside the error, matching
  the order of the statements in the source.
-/

/-- Model of a JavaScript number as far as this library observes it:
`typeof` is "number" for all of them, truthiness distinguishes `0` and `NaN`,
and only finite integer values can match the request table keys. -/
inductive JSNum where
  | fin (v : Int)
  | nan
  | inf (neg : Bool)

/-- Model of the JavaScript values exchanged through the IPC layer.
Objects are association lists from field name to value; reading an absent
field yields `undefined`, as property access does in JavaScript. -/
inductive JSValue where
  | undefined
  | null
  | bool (b : Bool)
  | num (n : JSNum)
  | str (s : String)
  | obj (fields : List (String × JSValue))

/-- JavaScript truthiness for the modelled values. -/
def truthy : JSValue → Bool
  | .undefined => false
  | .null => false
  | .bool b => b
  | .num (.fin v) => v != 0
  | .num .nan => false
  | .num (.inf _) => true
  | .str s => s != ""
  | .obj _ => true

/-- The result of the JavaScript `typeof` operator on a modelled value. -/
def typeofStr : JSValue → String
  | .undefined => "undefined"
  | .null => "object"
  | .bool _ => "boolean"
  | .num _ => "number"
  | .str _ => "string"
  | .obj _ => "object"

/-- Strict-equality test against `undefined`. -/
def isUndefined : JSValue → Bool
  | .undefined => true
  | _ => false

/-- Strict-equality test against `null`. -/
def isNull : JSValue → Bool
  | .null => true
  | _ => false

/-- Property access `x[k]`: returns the field value on objects, `undefined` when
the field is absent or the receiver is a primitive.  The source only performs
property access after guarding against `null`/`undefined` receivers, so the
throwing cases of JavaScript property access never feed into this function. -/
def getField : JSValue → String → JSValue
  | .obj fs, k => (fs.lookup k).getD .undefined
  | _, _ => .undefined

/-- Extracts the payload of a string value (the guards in the source ensure
this is only consulted when the value is known to be a string). -/
def strVal : JSValue → String
  | .str s => s
  | _ => ""

/-- The message produced by `new Error(v).message` / `String(v)` when the
router rejects a pending promise with a result message error field. -/
def errMessage : JSValue → String
  | .str s => s
  | .num (.fin v) => toString v
  | .num .nan => "NaN"
  | .num (.inf b) => if b then "-Infinity" else "Infinity"
  | .bool b => if b then "true" else "false"
  | .obj _ => "[object Object]"
  | .undefined => "undefined"
  | .null => "null"

/-- Translation of `isIpcMessage` (src/index.js lines 330-339): a truthy
object whose `call` and `source` accesses are strings, whose `handle` access
is `undefined` or any number, and whose `error` access is `undefined` or a
string.  The conjunction mirrors the source expression clause by clause. -/
def isIpcMessage (x : JSValue) : Bool :=
  truthy x &&
  typeofStr x == "object" &&
  typeofStr (getField x "call") == "string" &&
  typeofStr (getField x "source") == "string" &&
  (isUndefined (getField x "handle") || typeofStr (getField x "handle") == "number") &&
  (isUndefined (getField x "error") || typeofStr (getField x "error") == "string")

/-- State of a promise object created by `PublicPromise.deferred()`.  The
promise object survives deletion of its request-table entry (the caller still
holds it), so promise states are tracked separately from the table. -/
inductive PromiseState where
  | pending
  | resolved (v : JSValue)
  | rejected (msg : String)

/-- The module-level mutable state of the library: the monotonic counter
`ipcReqId`, the key set of the `ipcReqs` map, and the states of the promise
objects the table entries point at (keyed by handle; promise objects are
never discarded, only their table entries are). -/
structure ReqState where
  ipcReqId : Int
  ipcReqs : List Int
  promises : List (Int × PromiseState)

/-- The state of a context that has made no requests yet. -/
def freshState : ReqState := ⟨0, [], []⟩

/-- Association-list update with JavaScript `Map.set` semantics: overwrite
the entry when the key exists, append otherwise. -/
def mapSet (k : Int) (v : PromiseState) : List (Int × PromiseState) → List (Int × PromiseState)
  | [] => [(k, v)]
  | (k', v') :: rest => if k' == k then (k, v) :: rest else (k', v') :: mapSet k v rest

/-- `Map.set` semantics on the key set of `ipcReqs`. -/
def insertHandle (h : Int) (tbl : List Int) : List Int :=
  if tbl.contains h then tbl else h :: tbl

/-- A registered IPC handler: a function from the message data to either a
returned value or a raised error, the latter carried as the string that
`error instanceof Error ? error.message : String(error)` produces. -/
def Handler : Type := JSValue → Except String JSValue

/-- The `ipcHandlers` registry. -/
def Handlers : Type := List (String × Handler)

/-- The ambient execution context the source consults through globals:
the value `getWindowNameSafe()` evaluates to, whether `Window`/`window` are
defined, the callable properties of the global window object, and whether a
global `postMessage` function exists. -/
structure IpcEnv where
  sourceName : String
  windowDefined : Bool
  globals : Handlers
  globalPostDefined : Bool

/-- A concrete transport endpoint as `postIpcMessage` observes it:
whether it is an `instanceof Window`, and whether it has a callable
`postMessage` property. -/
structure Endpoint where
  isWindow : Bool
  hasPostMessage : Bool

/-- The abstract destination passed to `makeIpcRequest`/`sendIpcMessage`:
an iframe wrapper (whose `contentWindow` may be null), a direct endpoint
(window, worker, message port), or a null/undefined argument. -/
inductive IpcTarget where
  | iframe (contentWindow : Option Endpoint)
  | direct (e : Endpoint)
  | nullTarget

/-- Translation of `resolvePostTarget` (src/index.js lines 281-287): iframes
are unwrapped to their `contentWindow`, everything else is returned as is. -/
def resolvePostTarget : IpcTarget → Option Endpoint
  | .iframe w => w
  | .direct e => some e
  | .nullTarget => none

/-- The errors thrown on the outbound path, named after the taxonomy of the
specification: `invalidMessage` is the `Invalid IPC message structure` throw,
`invalidDestination` the `Invalid postMessage target` throw in
`makeIpcRequest`, and `noValidTransport` the final throw of
`postIpcMessage`. -/
inductive ReqError where
  | invalidMessage
  | invalidDestination
  | noValidTransport
deriving DecidableEq

/-- Translation of `postIpcMessage` (src/index.js lines 347-369): validate
the message, then post to a window with an origin restriction, else through
the endpoint postMessage, else through the global `postMessage`, else
throw.  The successful result is the list of messages sent (always a
singleton). -/
def postIpcMessage (env : IpcEnv) (target : Endpoint) (msg : JSValue) :
    Except ReqError (List JSValue) :=
  if !(isIpcMessage msg) then .error .invalidMessage
  else if env.windowDefined && target.isWindow then .ok [msg]
  else if target.hasPostMessage then .ok [msg]
  else if env.globalPostDefined then .ok [msg]
  else .error .noValidTransport

/-- The call message object literal built by `makeIpcRequest` (line 380):
note that the `error` field is present with value `undefined`. -/
def buildCallMessage (call : String) (data : JSValue) (h : Int) (name : String) : JSValue :=
  .obj [("call", .str call), ("data", data), ("handle", .num (.fin h)),
        ("source", .str name), ("error", .undefined)]

/-- The externally visible effects of one `makeIpcRequest` call, in program
order: registering the completion entry in `ipcReqs`, and performing the
send. -/
inductive ReqEffect where
  | registerEntry (h : Int)
  | post (msg : JSValue)

/-- Recognizer for send effects. -/
def ReqEffect.isPost : ReqEffect → Bool
  | .post _ => true
  | _ => false

/-- The outcome of one `makeIpcRequest` call: the error thrown, if any
(`makeIpcRequest` is an async function, so a throw surfaces as an immediate
rejection of the returned promise), the allocated handle, the module state
afterwards, and the effects performed, in order.  The counter increment and
the table registration happen before the destination check, so they are part
of the outcome even on the error paths. -/
structure ReqResult where
  error : Option ReqError
  handle : Int
  state : ReqState
  effects : List ReqEffect

/-- Translation of `makeIpcRequest` (src/index.js lines 376-391). -/
def makeIpcRequest (env : IpcEnv) (st : ReqState) (target : IpcTarget)
    (call : String) (data : JSValue) : ReqResult :=
  let handle := st.ipcReqId
  let postCall := buildCallMessage call data handle env.sourceName
  let st1 : ReqState :=
    { ipcReqId := st.ipcReqId + 1,
      ipcReqs := insertHandle handle st.ipcReqs,
      promises := mapSet handle .pending st.promises }
  let outcome : Option ReqError × List ReqEffect :=
    match resolvePostTarget target with
    | none => (some .invalidDestination, [.registerEntry handle])
    | some ep =>
      match postIpcMessage env ep postCall with
      | .error e => (some e, [.registerEntry handle])
      | .ok _ => (none, [.registerEntry handle, .post postCall])
  ⟨outcome.1, handle, st1, outcome.2⟩

/-- Sequential composition of several `makeIpcRequest` calls, returning the
allocated handles in order together with the final state. -/
def runRequests (env : IpcEnv) (st : ReqState) :
    List (IpcTarget × String × JSValue) → List Int × ReqState
  | [] => ([], st)
  | (t, c, d) :: rest =>
      let r := makeIpcRequest env st t c d
      let rest' := runRequests env r.state rest
      (r.handle :: rest'.1, rest'.2)

/-- The arithmetic sequence `start, start + 1, ...` of length `n`, the shape
the allocated handles are proved to take. -/
def handleSeq (start : Int) : Nat → List Int
  | 0 => []
  | n + 1 => start :: handleSeq (start + 1) n

/-- The errors `handleIpcMessage` throws, named after the throw sites in
src/index.js lines 422-445: the untrusted MessageEvent check, the validation
failure for bare payloads, the null-message check, and the TypeError raised
by the property access `message.call` when a wrapped payload is
`undefined`. -/
inductive RouterError where
  | untrustedSource
  | malformedMessage
  | nullMessage
  | typeError
deriving DecidableEq

/-- The argument of `handleIpcMessage`: either a `MessageEvent` wrapper
(with its `isTrusted` flag, its `data` payload and its possibly null
`source`) or a bare payload, as delivered by Node message channels. -/
inductive InboundData where
  | event (isTrusted : Bool) (payload : JSValue) (src : Option Unit)
  | bare (payload : JSValue)

/-- Everything one `handleIpcMessage` call did: the module state afterwards,
the reply messages posted to the event source, the names of the handler
functions that were invoked, and the `console.error` diagnostics (call name
paired with the error string). -/
structure RouterOutput where
  state : ReqState
  sent : List JSValue
  invoked : List String
  logged : List (String × String)

/-- Output of a router run that performed no effect. -/
def emptyOutput (st : ReqState) : RouterOutput := ⟨st, [], [], []⟩

/-- The success reply object literal of src/index.js lines 467-471. -/
def successReply (h : JSValue) (result : JSValue) (name : String) : JSValue :=
  .obj [("handle", h), ("data", result), ("source", .str name)]

/-- The error reply object literal of src/index.js lines 477-481. -/
def errorReply (h : JSValue) (e : String) (name : String) : JSValue :=
  .obj [("handle", h), ("error", .str e), ("source", .str name)]

/-- Translation of the call-dispatch branch of `handleIpcMessage`
(src/index.js lines 447-483): look the call name up in `ipcHandlers`, fall
back to a same-named function on the global window, invoke it, and send a
success or error reply if the message carried a handle and a source is
available. -/
def dispatchCall (env : IpcEnv) (handlers : Handlers) (st : ReqState)
    (message : JSValue) (callName : String) (src : Option Unit) :
    Option RouterError × RouterOutput :=
  let dataField := getField message "data"
  let handlerOpt : Option Handler :=
    match handlers.lookup callName with
    | some f => some f
    | none => if env.windowDefined then env.globals.lookup callName else none
  let invoked : List String :=
    match handlerOpt with
    | some _ => [callName]
    | none => []
  let outcome : Except String JSValue :=
    match handlerOpt with
    | some f => f dataField
    | none => .ok .undefined
  let handleField := getField message "handle"
  let wantReply : Bool := !(isUndefined handleField) && !(isNull handleField) && src.isSome
  match outcome with
  | .ok result =>
      let sent := if wantReply then [successReply handleField result env.sourceName] else []
      (none, ⟨st, sent, invoked, []⟩)
  | .error e =>
      let sent := if wantReply then [errorReply handleField e env.sourceName] else []
      (none, ⟨st, sent, invoked, [(callName, e)]⟩)

/-- The promise state a matched result message leaves behind:
`if (message.error)` rejects with the stringified error, otherwise the
promise resolves with the data field. -/
def resultPromise (d e : JSValue) : PromiseState :=
  if truthy e then .rejected (errMessage e) else .resolved d

/-- `ipcReqs.get(message.handle)`: the lookup succeeds exactly when the
handle value is a finite number whose key is in the table. -/
def tableLookup (tbl : List Int) (h : JSValue) : Option Int :=
  match h with
  | .num (.fin i) => if tbl.contains i then some i else none
  | _ => none

/-- Translation of the result-dispatch branch of `handleIpcMessage`
(src/index.js lines 485-497): look the handle up in `ipcReqs`; when found,
reject or resolve the stored promise and delete the entry; when not found,
do nothing. -/
def dispatchResult (st : ReqState) (message : JSValue) :
    Option RouterError × RouterOutput :=
  match tableLookup st.ipcReqs (getField message "handle") with
  | some i =>
      let newPromise := resultPromise (getField message "data") (getField message "error")
      (none, ⟨⟨st.ipcReqId, st.ipcReqs.erase i, mapSet i newPromise st.promises⟩, [], [], []⟩)
  | none => (none, emptyOutput st)

/-- Translation of the classification of an unwrapped message
(src/index.js lines 443-497): the null check, the implicit TypeError on an
undefined payload, the call guard `message.call && typeof message.call ===
"string"`, and the result guard `message.handle` (a truthiness test, so the
handle value `0` never reaches `dispatchResult`). -/
def dispatchMessage (env : IpcEnv) (handlers : Handlers) (st : ReqState)
    (message : JSValue) (src : Option Unit) : Option RouterError × RouterOutput :=
  if isNull message then (some .nullMessage, emptyOutput st)
  else if isUndefined message then (some .typeError, emptyOutput st)
  else if truthy (getField message "call") && typeofStr (getField message "call") == "string" then
    dispatchCall env handlers st message (strVal (getField message "call")) src
  else if truthy (getField message "handle") then
    dispatchResult st message
  else
    (none, emptyOutput st)

/-- Translation of `handleIpcMessage` (src/index.js lines 422-498): a
MessageEvent is unwrapped after the trust check and keeps its source; a bare
payload must pass `isIpcMessage` and has no source; anything else throws. -/
def handleIpcMessage (env : IpcEnv) (handlers : Handlers) (st : ReqState)
    (data : InboundData) : Option RouterError × RouterOutput :=
  match data with
  | .event isTrusted payload src =>
      if isTrusted then dispatchMessage env handlers st payload src
      else (some .untrustedSource, emptyOutput st)
  | .bare payload =>
      if isIpcMessage payload then dispatchMessage env handlers st payload none
      else (some .malformedMessage, emptyOutput st)

/-- Modelled from the specification wording of claim C3 (spec section 4.1):
true iff the value is an object whose key set is contained in
call/data/handle/source, whose `call` entry is a non-empty string, whose
`source` entry is a string, and whose `handle` entry, when present, is a
finite number.  This is the comparison point for the refinement claim about
the validator; the executable validator above is `isIpcMessage`. -/
def isCallMessageSpec (x : JSValue) : Bool :=
  match x with
  | .obj fs =>
      fs.all (fun kv => ["call", "data", "handle", "source"].contains kv.1) &&
      (match fs.lookup "call" with
       | some (.str s) => s != ""
       | _ => false) &&
      (match fs.lookup "source" with
       | some (.str _) => true
       | _ => false) &&
      (match fs.lookup "handle" with
       | none => true
       | some .undefined => true
       | some (.num (.fin _)) => true
       | some _ => false)
  | _ => false

/-- The shape of values the validator `isIpcMessage` actually accepts,
stated structurally: an object whose call and source accesses are strings
(possibly empty), whose handle access is undefined or any number (finite or
not), and whose error access is undefined or a string; extra keys are not
examined. -/
def CallMessageShape (x : JSValue) : Prop :=
  (∃ fs, x = .obj fs) ∧
  (∃ s, getField x "call" = .str s) ∧
  (∃ s, getField x "source" = .str s) ∧
  (getField x "handle" = .undefined ∨ ∃ n, getField x "handle" = .num n) ∧
  (getField x "error" = .undefined ∨ ∃ s, getField x "error" = .str s)

/-- The error `makeIpcRequest` raises as a function of the environment and
the destination: `invalidDestination` when the resolver yields nothing,
`noValidTransport` when no send strategy applies, none otherwise. -/
def expectedReqError (env : IpcEnv) (target : IpcTarget) : Option ReqError :=
  match resolvePostTarget target with
  | none => some .invalidDestination
  | some ep =>
      if env.windowDefined && ep.isWindow || ep.hasPostMessage || env.globalPostDefined
      then none
      else some .noValidTransport

/-- A worker-style environment: no window, a global postMessage. -/
def envMain : IpcEnv := ⟨"main", false, [], true⟩

/-- A second worker-style environment for the remote side of scenarios. -/
def envWorker : IpcEnv := ⟨"worker", false, [], true⟩

/-- A worker endpoint: not a window, has a postMessage method. -/
def workerEndpoint : Endpoint := ⟨false, true⟩

/-- A handler that returns a fixed greeting, as in the README scenario. -/
def greetH : Handler := fun _ => .ok (.str "Hello World!")

/-- A handler that raises, with a non-empty message. -/
def boomH : Handler := fun _ => .error "fail"

/-- A handler that raises an error whose message is the empty string. -/
def boomEmptyH : Handler := fun _ => .error ""

/-- The first request a fresh context makes: it is assigned handle 0. -/
def reqC1 : ReqResult :=
  makeIpcRequest envMain freshState (.direct workerEndpoint) "greet" (.str "World")

/-- The success reply the remote router sends back for that first request. -/
def replyC1 : JSValue := successReply (.num (.fin 0)) (.str "Hello World!") "worker"

/-- A result message with an arbitrary handle value, data and error fields,
matching the reply object literals of the source (no `call` field). -/
def resultMsgAt (i : Int) (w : String) (d e : JSValue) : JSValue :=
  .obj [("handle", .num (.fin i)), ("data", d), ("source", .str w), ("error", e)]

/-- A state with one outstanding request under handle 1. -/
def stOne : ReqState := ⟨2, [1], [(1, .pending)]⟩

/-- A state with one outstanding request under handle 0 (the state after the
first request of a process). -/
def stZero : ReqState := ⟨1, [0], [(0, .pending)]⟩

/-- A call message whose `call` string is empty: accepted by the code
validator, rejected by the specification wording. -/
def exEmptyCall : JSValue := .obj [("call", .str ""), ("source", .str "s")]

/-- A call message with an extra key: accepted by the code validator,
rejected by the specification wording. -/
def exExtraKey : JSValue :=
  .obj [("call", .str "go"), ("source", .str "s"), ("extra", .num (.fin 1))]

/-- A call message whose handle is NaN: accepted by the code validator
(`typeof NaN` is "number"), rejected by the specification wording. -/
def exNanHandle : JSValue :=
  .obj [("call", .str "go"), ("source", .str "s"), ("handle", .num .nan)]

/-- The bare call message of the Node worker scenario: carries a handle, so
the specification requires a reply or a NoReplyTarget failure. -/
def bareCallMsg : JSValue :=
  .obj [("call", .str "greet"), ("data", .str "World"),
        ("handle", .num (.fin 1)), ("source", .str "worker")]

example : reqC1.handle = 0 ∧ reqC1.error = none := ⟨rfl, rfl⟩
example : reqC1.state.promises.lookup 0 = some .pending := rfl
example :
    handleIpcMessage envWorker [("greet", greetH)] freshState
      (.event true (buildCallMessage "greet" (.str "World") 0 "main") (some ())) =
    (none, ⟨freshState, [replyC1], ["greet"], []⟩) := rfl
example :
    handleIpcMessage envMain [] reqC1.state (.event true replyC1 (some ())) =
    (none, emptyOutput reqC1.state) := rfl
example :
    handleIpcMessage envMain [] stOne
      (.event true (resultMsgAt 1 "w" (.str "v") .undefined) (some ())) =
    (none, ⟨⟨2, [], [(1, .resolved (.str "v"))]⟩, [], [], []⟩) := rfl
example :
    handleIpcMessage envMain [] stOne (.event true (errorReply (.num (.fin 1)) "fail" "w") (some ())) =
    (none, ⟨⟨2, [], [(1, .rejected "fail")]⟩, [], [], []⟩) := rfl
example :
    handleIpcMessage envMain [("greet", greetH)] freshState
      (.bare (.obj [("call", .str "greet"), ("data", .str "World"),
                    ("handle", .num (.fin 1)), ("source", .str "worker")])) =
    (none, ⟨freshState, [], ["greet"], []⟩) := rfl
example :
    handleIpcMessage envMain [] freshState (.event true (.obj [("foo", .num (.fin 1))]) (some ())) =
    (none, emptyOutput freshState) := rfl
example :
    handleIpcMessage envMain [] freshState (.bare (.num (.fin 1))) =
    (some .malformedMessage, emptyOutput freshState) := rfl

/-- Looking up a key right after a `Map.set` of that key yields the value
just stored. -/
theorem mapSet_lookup (k : Int) (v : PromiseState) :
    ∀ l : List (Int × PromiseState), (mapSet k v l).lookup k = some v
  | [] => by simp [mapSet, List.lookup]
  | (k', v') :: rest => by
      by_cases h : k' = k
      · subst h
        simp [mapSet, List.lookup]
      · have hb : (k' == k) = false := by simpa using h
        have hb' : (k == k') = false := by simpa using Ne.symm h
        simp [mapSet, List.lookup, hb, hb', mapSet_lookup k v rest]

/-- The key set contains a handle right after it was inserted. -/
theorem insertHandle_contains (h : Int) (tbl : List Int) :
    (insertHandle h tbl).contains h = true := by
  unfold insertHandle
  by_cases hc : tbl.contains h = true
  · rw [if_pos hc]
    exact hc
  · rw [if_neg hc]
    simp

/-- Every member of `handleSeq start n` is at least `start`. -/
theorem handleSeq_le (x : Int) :
    ∀ (n : Nat) (start : Int), x ∈ handleSeq start n → start ≤ x
  | 0, start => by simp [handleSeq]
  | n + 1, start => by
      intro hx
      rcases List.mem_cons.mp hx with h | h
      · omega
      · have := handleSeq_le x n (start + 1) h
        omega

/-- The arithmetic handle sequence has no duplicates. -/
theorem handleSeq_nodup : ∀ (n : Nat) (start : Int), (handleSeq start n).Nodup
  | 0, _ => by simp [handleSeq]
  | n + 1, start => by
      rw [handleSeq, List.nodup_cons]
      refine ⟨fun hmem => ?_, handleSeq_nodup n (start + 1)⟩
      have := handleSeq_le start n (start + 1) hmem
      omega

/-- The handle returned by a request is the counter value before the call. -/
theorem makeIpcRequest_handle (env : IpcEnv) (st : ReqState) (t : IpcTarget)
    (c : String) (d : JSValue) : (makeIpcRequest env st t c d).handle = st.ipcReqId := rfl

/-- A request advances the counter by exactly one, on every path. -/
theorem makeIpcRequest_counter (env : IpcEnv) (st : ReqState) (t : IpcTarget)
    (c : String) (d : JSValue) :
    (makeIpcRequest env st t c d).state.ipcReqId = st.ipcReqId + 1 := rfl

/-- A run of requests allocates the consecutive handles starting at the
current counter value. -/
theorem runRequests_handles (env : IpcEnv) :
    ∀ (reqs : List (IpcTarget × String × JSValue)) (st : ReqState),
      (runRequests env st reqs).1 = handleSeq st.ipcReqId reqs.length
  | [], st => rfl
  | (t, c, d) :: rest, st => by
      have ih := runRequests_handles env rest (makeIpcRequest env st t c d).state
      simp only [runRequests, List.length_cons, handleSeq]
      rw [ih, makeIpcRequest_counter, makeIpcRequest_handle]

/-- The call message a request builds always passes the validator. -/
theorem isIpcMessage_buildCallMessage (c : String) (d : JSValue) (h : Int) (n : String) :
    isIpcMessage (buildCallMessage c d h n) = true := rfl

/-- A value has `typeof` "string" exactly when it is a string. -/
theorem typeof_string_iff (v : JSValue) :
    (typeofStr v == "string") = true ↔ ∃ s, v = .str s := by
  cases v <;> simp [typeofStr]

/-- The handle clause of the validator accepts exactly `undefined` or a
number value, finite or not. -/
theorem handle_clause_iff (v : JSValue) :
    (isUndefined v || typeofStr v == "number") = true ↔ (v = .undefined ∨ ∃ n, v = .num n) := by
  cases v <;> simp [isUndefined, typeofStr]

/-- The error clause of the validator accepts exactly `undefined` or a
string value. -/
theorem error_clause_iff (v : JSValue) :
    (isUndefined v || typeofStr v == "string") = true ↔ (v = .undefined ∨ ∃ s, v = .str s) := by
  cases v <;> simp [isUndefined, typeofStr]

/-- The leading truthy-object clause of the validator holds exactly for
objects. -/
theorem object_clause_iff (v : JSValue) :
    (truthy v && typeofStr v == "object") = true ↔ ∃ fs, v = .obj fs := by
  cases v <;> simp [truthy, typeofStr]

/-- C3 (counterexample): the validator is not the predicate claimed.  It
accepts an empty `call` string, an object with an extra key, and a NaN
handle, each of which the claimed predicate rejects. -/
theorem validatorDiffersFromSpec :
    (isIpcMessage exEmptyCall = true ∧ isCallMessageSpec exEmptyCall = false) ∧
    (isIpcMessage exExtraKey = true ∧ isCallMessageSpec exExtraKey = false) ∧
    (isIpcMessage exNanHandle = true ∧ isCallMessageSpec exNanHandle = false) :=
  ⟨⟨rfl, rfl⟩, ⟨rfl, rfl⟩, ⟨rfl, rfl⟩⟩

/-- C3 (amended): the validator returns true exactly on truthy objects whose
`call` and `source` property accesses are strings (the empty string
included), whose `handle` access is undefined or any number (finite or not),
and whose `error` access is undefined or a string; no key-set restriction is
enforced. -/
theorem validatorCharacterization (x : JSValue) :
    isIpcMessage x = true ↔ CallMessageShape x := by
  have hobj : (truthy x = true ∧ (typeofStr x == "object") = true) ↔ ∃ fs, x = .obj fs := by
    rw [← Bool.and_eq_true]
    exact object_clause_iff x
  unfold isIpcMessage CallMessageShape
  simp only [Bool.and_eq_true, typeof_string_iff, handle_clause_iff, error_clause_iff,
    and_assoc, hobj]

/-- C1 (evaluation at the failing input): the very first request of a
process gets handle 0 and its send succeeds; the remote router invokes the
registered handler and posts back a success reply carrying handle 0 and the
returned data; but when that reply reaches the requesting context, the
router leaves the state untouched because the guard `message.handle` is
falsy for 0 — the promise recorded for handle 0 stays pending instead of
resolving with the returned data. -/
theorem firstRequestReplyDropped :
    (reqC1.error = none ∧ reqC1.handle = 0) ∧
    handleIpcMessage envWorker [("greet", greetH)] freshState
      (.event true (buildCallMessage "greet" (.str "World") 0 "main") (some ())) =
      (none, ⟨freshState, [replyC1], ["greet"], []⟩) ∧
    handleIpcMessage envMain [] reqC1.state (.event true replyC1 (some ())) =
      (none, emptyOutput reqC1.state) ∧
    reqC1.state.promises.lookup 0 = some .pending :=
  ⟨⟨rfl, rfl⟩, rfl, rfl, rfl⟩

/-- C2: an inbound result message carrying handle 0 is a complete no-op for
the router.  Wrapped in a trusted event it is classified past both guards
and nothing happens; delivered bare it is rejected as malformed before the
table is consulted.  Either way the state — table and promise states — is
returned unchanged, for every state, including states holding an
outstanding entry for handle 0. -/
theorem zeroHandleResultIsNoop (env : IpcEnv) (hs : Handlers) (st : ReqState)
    (w : String) (d e : JSValue) (s : Option Unit) :
    handleIpcMessage env hs st (.event true (resultMsgAt 0 w d e) s) =
      (none, emptyOutput st) ∧
    handleIpcMessage env hs st (.bare (resultMsgAt 0 w d e)) =
      (some .malformedMessage, emptyOutput st) :=
  ⟨rfl, rfl⟩

/-- C6 (counterexample): a result message whose handle 0 matches an
outstanding table entry is processed without removing the entry — the
matched entry survives, contradicting the unconditional-removal claim. -/
theorem matchedZeroHandleNotRemoved :
    stZero.ipcReqs.contains 0 = true ∧
    handleIpcMessage envMain [] stZero
      (.event true (resultMsgAt 0 "w" (.str "v") .undefined) (some ())) =
      (none, emptyOutput stZero) :=
  ⟨rfl, rfl⟩

/-- C7 (counterexample): a trusted wrapped payload that is neither a call
message nor a result message is silently ignored — the router returns
without an error, so `handleInbound` does not throw on this malformed
wrapped input. -/
theorem wrappedMalformedSilentlyIgnored :
    handleIpcMessage envMain [] freshState
      (.event true (.obj [("foo", .num (.fin 1))]) (some ())) =
      (none, emptyOutput freshState) := rfl

/-- C8: an untrusted wrapped message makes the router throw
`untrustedSource` before anything else happens: no handler is invoked, no
reply is sent, and the state is unchanged, whatever the payload. -/
theorem untrustedEventRejected (env : IpcEnv) (hs : Handlers) (st : ReqState)
    (payload : JSValue) (s : Option Unit) :
    handleIpcMessage env hs st (.event false payload s) =
      (some .untrustedSource, emptyOutput st) := rfl

/-- C9 (evaluation at the failing input): a bare call message that carries a
handle is dispatched — the handler runs — but because bare delivery yields
no source and `handleIpcMessage` accepts no fallback reply target, the
router neither raises any error nor sends any reply. -/
theorem bareCallWithHandleSendsNoReply :
    handleIpcMessage envMain [("greet", greetH)] freshState (.bare bareCallMsg) =
      (none, ⟨freshState, [], ["greet"], []⟩) := rfl

/-- C5 (counterexample): a handler that raises an error whose message is the
empty string.  The remote router does catch it and sends an error reply
carrying the empty string, but the requesting router then takes the
`message.error` truthiness branch: the stored promise for the matched handle
is resolved with `undefined` instead of being rejected. -/
theorem emptyErrorStringResolvesInsteadOfRejecting :
    handleIpcMessage envWorker [("boom0", boomEmptyH)] freshState
      (.event true (buildCallMessage "boom0" .undefined 1 "main") (some ())) =
      (none, ⟨freshState, [errorReply (.num (.fin 1)) "" "worker"], ["boom0"], [("boom0", "")]⟩) ∧
    handleIpcMessage envMain [] stOne
      (.event true (errorReply (.num (.fin 1)) "" "worker") (some ())) =
      (none, ⟨⟨2, [], [(1, .resolved .undefined)]⟩, [], [], []⟩) :=
  ⟨rfl, rfl⟩

/-- C4: within one process, request handles start at the counter value 0 of
the fresh state, go up by exactly one per request, are pairwise distinct and
never reused; and each request registers its pending completion entry under
its handle as its first effect, before any send effect. -/
theorem requestHandlesMonotone (env : IpcEnv) :
    (∀ (st : ReqState) (target : IpcTarget) (call : String) (data : JSValue),
        (makeIpcRequest env st target call data).handle = st.ipcReqId ∧
        (makeIpcRequest env st target call data).state.ipcReqId = st.ipcReqId + 1 ∧
        (makeIpcRequest env st target call data).state.promises.lookup st.ipcReqId =
          some .pending ∧
        (makeIpcRequest env st target call data).state.ipcReqs.contains st.ipcReqId = true ∧
        (∃ tail, (makeIpcRequest env st target call data).effects =
            .registerEntry st.ipcReqId :: tail ∧ tail.all ReqEffect.isPost = true)) ∧
    (∀ reqs : List (IpcTarget × String × JSValue),
        (runRequests env freshState reqs).1 = handleSeq 0 reqs.length ∧
        ((runRequests env freshState reqs).1).Nodup) := by
  constructor
  · intro st target call data
    refine ⟨rfl, rfl, mapSet_lookup _ _ _, insertHandle_contains _ _, ?_⟩
    unfold makeIpcRequest
    rcases htgt : resolvePostTarget target with _ | ep
    · exact ⟨[], rfl, rfl⟩
    · rcases hpost : postIpcMessage env ep
          (buildCallMessage call data st.ipcReqId env.sourceName) with e | l
      · exact ⟨[], by simp [htgt, hpost], rfl⟩
      · exact ⟨[.post (buildCallMessage call data st.ipcReqId env.sourceName)],
          by simp [htgt, hpost], rfl⟩
  · intro reqs
    have h := runRequests_handles env reqs freshState
    rw [h]
    exact ⟨rfl, handleSeq_nodup reqs.length 0⟩

/-- C10: a request fails exactly when destination resolution or the
outbound dispatch fails, the error is `invalidDestination` or
`noValidTransport` accordingly (never any other), and on those paths no
send effect happens — the outcome is an immediate error, not a pending
future. -/
theorem requestFailsImmediately (env : IpcEnv) (st : ReqState) (target : IpcTarget)
    (call : String) (data : JSValue) :
    (makeIpcRequest env st target call data).error = expectedReqError env target ∧
    (makeIpcRequest env st target call data).error ∈
      [none, some ReqError.invalidDestination, some ReqError.noValidTransport] ∧
    (makeIpcRequest env st target call data).effects =
      (match expectedReqError env target with
       | some _ => [ReqEffect.registerEntry st.ipcReqId]
       | none => [ReqEffect.registerEntry st.ipcReqId,
                  ReqEffect.post (buildCallMessage call data st.ipcReqId env.sourceName)]) := by
  rcases htgt : resolvePostTarget target with _ | ep
  · simp [makeIpcRequest, expectedReqError, htgt]
  · cases hw : env.windowDefined && ep.isWindow <;>
      cases hp : ep.hasPostMessage <;>
        cases hg : env.globalPostDefined <;>
          simp [makeIpcRequest, expectedReqError, postIpcMessage,
            isIpcMessage_buildCallMessage, htgt, hw, hp, hg]

/-- Unwrapping a trusted event is exactly the message dispatch. -/
theorem handleIpcMessage_trusted (env : IpcEnv) (hs : Handlers) (st : ReqState)
    (p : JSValue) (s : Option Unit) :
    handleIpcMessage env hs st (.event true p s) = dispatchMessage env hs st p s := rfl

/-- A message whose call access is a non-empty string takes the
call-dispatch branch. -/
theorem dispatchMessage_call (env : IpcEnv) (hs : Handlers) (st : ReqState)
    (msg : JSValue) (src : Option Unit) (s : String)
    (hc : getField msg "call" = .str s) (hs' : s ≠ "")
    (hnn : isNull msg = false) (hnu : isUndefined msg = false) :
    dispatchMessage env hs st msg src = dispatchCall env hs st msg s src := by
  unfold dispatchMessage
  rw [hnn, hnu, hc]
  simp [truthy, typeofStr, strVal, hs']

/-- A message whose call access is undefined and whose handle access is a
non-zero finite number takes the result-dispatch branch. -/
theorem dispatchMessage_result (env : IpcEnv) (hs : Handlers) (st : ReqState)
    (msg : JSValue) (src : Option Unit) (i : Int)
    (hc : getField msg "call" = .undefined) (hhdl : getField msg "handle" = .num (.fin i))
    (hi : i ≠ 0) (hnn : isNull msg = false) (hnu : isUndefined msg = false) :
    dispatchMessage env hs st msg src = dispatchResult st msg := by
  unfold dispatchMessage
  rw [hnn, hnu, hc, hhdl]
  simp [truthy, typeofStr, hi]

/-- C5 (amended): when a registered handler raises, the remote router
catches the failure (it returns without throwing), logs it, and sends back a
result message whose error field is the string produced from the failure;
and provided that string is non-empty and the request handle is not 0, the
requesting router rejects the stored completion with an error carrying
exactly that string. -/
theorem raisingHandlerRejectsCaller (envR envL : IpcEnv) (hs hsL : Handlers)
    (stR stL : ReqState) (name reqSrc : String) (f : Handler) (d : JSValue)
    (h : Int) (e : String)
    (hlook : hs.lookup name = some f) (hraise : f d = .error e)
    (hname : name ≠ "") (hh : h ≠ 0) (he : e ≠ "")
    (hmem : stL.ipcReqs.contains h = true) :
    handleIpcMessage envR hs stR (.event true (buildCallMessage name d h reqSrc) (some ())) =
      (none, ⟨stR, [errorReply (.num (.fin h)) e envR.sourceName], [name], [(name, e)]⟩) ∧
    (handleIpcMessage envL hsL stL
        (.event true (errorReply (.num (.fin h)) e envR.sourceName) (some ()))).1 = none ∧
    (handleIpcMessage envL hsL stL
        (.event true (errorReply (.num (.fin h)) e envR.sourceName)
          (some ()))).2.state.promises.lookup h = some (.rejected e) := by
  have hmem' : h ∈ stL.ipcReqs := by simpa using hmem
  have hres : handleIpcMessage envL hsL stL
      (.event true (errorReply (.num (.fin h)) e envR.sourceName) (some ())) =
      dispatchResult stL (errorReply (.num (.fin h)) e envR.sourceName) := by
    rw [handleIpcMessage_trusted]
    exact dispatchMessage_result envL hsL stL _ (some ()) h rfl rfl hh rfl rfl
  have heer : getField (errorReply (.num (.fin h)) e envR.sourceName) "error" = .str e := rfl
  have hedt : getField (errorReply (.num (.fin h)) e envR.sourceName) "data" = .undefined := rfl
  have hehd : getField (errorReply (.num (.fin h)) e envR.sourceName) "handle" =
      .num (.fin h) := rfl
  refine ⟨?_, ?_, ?_⟩
  · rw [handleIpcMessage_trusted,
      dispatchMessage_call envR hs stR (buildCallMessage name d h reqSrc) (some ())
        name rfl hname rfl rfl]
    have hdata : getField (buildCallMessage name d h reqSrc) "data" = d := rfl
    have hhdl : getField (buildCallMessage name d h reqSrc) "handle" = .num (.fin h) := rfl
    simp [dispatchCall, hdata, hhdl, hlook, hraise, isUndefined, isNull]
  · rw [hres]
    simp [dispatchResult, tableLookup, hehd, hmem']
  · rw [hres]
    simp [dispatchResult, tableLookup, hmem', heer, hedt, hehd, resultPromise,
      errMessage, truthy, he, mapSet_lookup]

/-- Witness for the amended C5 theorem at a concrete raising handler. -/
theorem raisingHandlerRejectsCaller_w :
    handleIpcMessage envWorker [("boom", boomH)] freshState
      (.event true (buildCallMessage "boom" .undefined 1 "main") (some ())) =
      (none, ⟨freshState, [errorReply (.num (.fin 1)) "fail" envWorker.sourceName],
        ["boom"], [("boom", "fail")]⟩) ∧
    (handleIpcMessage envMain [] stOne
        (.event true (errorReply (.num (.fin 1)) "fail" envWorker.sourceName) (some ()))).1 =
      none ∧
    (handleIpcMessage envMain [] stOne
        (.event true (errorReply (.num (.fin 1)) "fail" envWorker.sourceName)
          (some ()))).2.state.promises.lookup 1 = some (.rejected "fail") :=
  raisingHandlerRejectsCaller envWorker envMain [("boom", boomH)] [] freshState stOne
    "boom" "main" boomH .undefined 1 "fail" rfl rfl (by decide) (by decide) (by decide) rfl

/-- C6 (amended): a result message whose handle is a non-zero finite number
is a strict no-op when the handle matches no outstanding entry — no throw,
no table change, no completion — and when it does match, the entry is
removed from the table unconditionally, whether the message carried data or
error; the handle value 0 is excluded, since the router ignores it even
when it is matched. -/
theorem resultDispatchTableBehaviour (env : IpcEnv) (hs : Handlers) (st : ReqState)
    (i : Int) (d e : JSValue) (w : String) (s : Option Unit) (hi : i ≠ 0) :
    (st.ipcReqs.contains i = false →
        handleIpcMessage env hs st (.event true (resultMsgAt i w d e) s) =
          (none, emptyOutput st)) ∧
    (st.ipcReqs.contains i = true →
        handleIpcMessage env hs st (.event true (resultMsgAt i w d e) s) =
          (none, ⟨⟨st.ipcReqId, st.ipcReqs.erase i,
            mapSet i (resultPromise d e) st.promises⟩, [], [], []⟩)) := by
  have hres : handleIpcMessage env hs st (.event true (resultMsgAt i w d e) s) =
      dispatchResult st (resultMsgAt i w d e) := by
    rw [handleIpcMessage_trusted]
    exact dispatchMessage_result env hs st (resultMsgAt i w d e) s i rfl rfl hi rfl rfl
  have hhdl : getField (resultMsgAt i w d e) "handle" = .num (.fin i) := rfl
  have hdt : getField (resultMsgAt i w d e) "data" = d := rfl
  have her : getField (resultMsgAt i w d e) "error" = e := rfl
  constructor
  · intro hc
    have hc' : i ∉ st.ipcReqs := by simpa using hc
    rw [hres]
    simp [dispatchResult, tableLookup, hhdl, hc']
  · intro hc
    have hc' : i ∈ st.ipcReqs := by simpa using hc
    rw [hres]
    simp [dispatchResult, tableLookup, hhdl, hdt, her, hc']

/-- Witness for the amended C6 theorem: an unmatched handle 2 and a matched
handle 1 against a table holding only handle 1. -/
theorem resultDispatchTableBehaviour_w :
    handleIpcMessage envMain [] stOne
      (.event true (resultMsgAt 2 "w" .undefined .undefined) (some ())) =
      (none, emptyOutput stOne) ∧
    handleIpcMessage envMain [] stOne
      (.event true (resultMsgAt 1 "w" .undefined .undefined) (some ())) =
      (none, ⟨⟨stOne.ipcReqId, stOne.ipcReqs.erase 1,
        mapSet 1 (resultPromise .undefined .undefined) stOne.promises⟩, [], [], []⟩) :=
  ⟨(resultDispatchTableBehaviour envMain [] stOne 2 .undefined .undefined "w" (some ())
      (by decide)).1 rfl,
   (resultDispatchTableBehaviour envMain [] stOne 1 .undefined .undefined "w" (some ())
      (by decide)).2 rfl⟩

/-- C7 (amended): a bare payload that fails validation makes the router
throw `malformedMessage` before any dispatch or table mutation; a trusted
wrapped object payload that satisfies neither the call guard nor the result
guard is silently ignored — no throw, no dispatch, no mutation. -/
theorem malformedInboundHandling (env : IpcEnv) (hs : Handlers) (st : ReqState)
    (payload : JSValue) (fs : List (String × JSValue)) (s : Option Unit)
    (hbad : isIpcMessage payload = false)
    (hcall : (truthy (getField (.obj fs) "call") &&
        typeofStr (getField (.obj fs) "call") == "string") = false)
    (hhandle : truthy (getField (.obj fs) "handle") = false) :
    handleIpcMessage env hs st (.bare payload) = (some .malformedMessage, emptyOutput st) ∧
    handleIpcMessage env hs st (.event true (.obj fs) s) = (none, emptyOutput st) := by
  constructor
  · simp [handleIpcMessage, hbad]
  · rw [handleIpcMessage_trusted]
    simp [dispatchMessage, isNull, isUndefined, hcall, hhandle]

/-- Witness for the amended C7 theorem: a bare number payload and a wrapped
object payload with a single unrelated key. -/
theorem malformedInboundHandling_w :
    handleIpcMessage envMain [] freshState (.bare (.num (.fin 1))) =
      (some .malformedMessage, emptyOutput freshState) ∧
    handleIpcMessage envMain [] freshState
      (.event true (.obj [("foo", .num (.fin 1))]) (some ())) =
      (none, emptyOutput freshState) :=
  malformedInboundHandling envMain [] freshState (.num (.fin 1)) [("foo", .num (.fin 1))]
    (some ()) rfl rfl rfl
